import Mathlib

/-!
Verification development for the gold-signal-bot trading dashboard.

The frontend (Angular/TypeScript) is embedded shallowly: JS numbers are
modelled as exact rationals (ℚ), nullable fields as `Option`, JS falsy
coercions (`x || y`) are spelled out case by case, and RxJS stream
operators are modelled on finite lists of emitted values.  The backend
simulator/aggregator is not part of the sources; the few definitions that
need it are modelled from the specification and say so in their doc
comments.
-/

/-! ## Data model (frontend `core/models/models.ts`) -/

/-- `JobStatus.status`: union type "pending" | "running" | "completed" | "failed". -/
inductive JobState where
  | pending | running | completed | failed
deriving DecidableEq, Repr

/-- `JobStatus` record polled from the server. -/
structure JobStatus where
  status : JobState
  progress : ℚ
  message : String
  updated_at : String
deriving DecidableEq, Repr

/-- `Trade.type`: union type "BUY" | "SELL". -/
inductive TradeType where
  | BUY | SELL
deriving DecidableEq, Repr

/-- `Trade.status`: union type "Open" | "Closed". -/
inductive TradeStatus where
  | Open | Closed
deriving DecidableEq, Repr

/-- `Trade` record of the result bundle (models.ts). -/
structure Trade where
  timestamp : String
  type : TradeType
  entry_price : ℚ
  sl : ℚ
  tp : ℚ
  close_price : Option ℚ
  close_timestamp : Option String
  close_reason : Option String
  pips : Option ℚ
  profit_money : Option ℚ
  status : TradeStatus
  confidence : ℚ
deriving DecidableEq, Repr

/-- `BacktestMetrics` record (models.ts). -/
structure BacktestMetrics where
  initial_balance : Option ℚ
  final_balance : Option ℚ
  total_profit_money : Option ℚ
  total_pips : ℚ
  total_trades : ℕ
  closed_trades : ℕ
  open_trades : ℕ
  winning_trades : ℕ
  losing_trades : ℕ
  win_rate : ℚ
  avg_win : ℚ
  avg_loss : ℚ
  avg_win_money : Option ℚ
  avg_loss_money : Option ℚ
  profit_factor : ℚ
deriving DecidableEq, Repr

/-- `EquityPoint` record (models.ts): balance is optional. -/
structure EquityPoint where
  timestamp : String
  balance : Option ℚ
  pips : ℚ
deriving DecidableEq, Repr

/-- One entry of `monthly_performance` (models.ts). -/
structure MonthlyPerf where
  month : String
  percent : ℚ
  profit : ℚ
deriving DecidableEq, Repr

/-- The value part of one `daily_performance` entry (models.ts). -/
structure DailyPerf where
  profit : ℚ
  percent : ℚ
  count : ℕ
deriving DecidableEq, Repr

/-- One entry of `drawdown_curve` (models.ts). -/
structure DrawdownPoint where
  timestamp : String
  drawdown : ℚ
deriving DecidableEq, Repr

/-- `BacktestResults` bundle (models.ts).  The `daily_performance` JSON
object is modelled as its `Object.entries` list of key/value pairs. -/
structure BacktestResults where
  trades : List Trade
  metrics : BacktestMetrics
  equity_curve : List EquityPoint
  monthly_performance : Option (List MonthlyPerf)
  daily_performance : Option (List (String × DailyPerf))
  drawdown_curve : Option (List DrawdownPoint)
  output : String
  timestamp : String
deriving DecidableEq, Repr

/-! ## ApiService polling (`core/services/api.service.ts`)

`pollTrainingStatus` / `pollBacktestStatus` pipe an interval through
`switchMap(getStatus)` and `takeWhile(pred, inclusive := true)`.  We model
the stream of statuses the server would return as a list and the rxjs
`takeWhile(..., true)` operator on it: it re-emits elements while the
predicate holds and additionally emits the first element that fails it,
then completes. -/

/-- rxjs `takeWhile(p, inclusive := true)` on a finite emission list. -/
def takeWhileIncl (p : α → Bool) : List α → List α
  | [] => []
  | x :: xs => if p x then x :: takeWhileIncl p xs else [x]

/-- The predicate of both poll pipelines:
`status.status === "pending" || status.status === "running"`. -/
def isActiveStatus (s : JobStatus) : Bool :=
  s.status == JobState.pending || s.status == JobState.running

namespace ApiService

/-- `ApiService.pollTrainingStatus`, as the transformation it applies to the
sequence of statuses returned by `getTrainingStatus`. -/
def pollTrainingStatus (statuses : List JobStatus) : List JobStatus :=
  takeWhileIncl isActiveStatus statuses

/-- `ApiService.pollBacktestStatus`, same pipeline over
`getBacktestStatus` responses. -/
def pollBacktestStatus (statuses : List JobStatus) : List JobStatus :=
  takeWhileIncl isActiveStatus statuses

end ApiService

lemma takeWhileIncl_all_active (l : List JobStatus)
    (h : ∀ x ∈ l, isActiveStatus x = true) :
    takeWhileIncl isActiveStatus l = l := by
  induction l with
  | nil => rfl
  | cons a t ih =>
    have ha := h a (List.mem_cons_self a t)
    simp only [takeWhileIncl, ha, if_pos]
    exact congrArg (a :: ·) (ih fun x hx => h x (List.mem_cons_of_mem a hx))

lemma takeWhileIncl_append_terminal (l₁ l₂ : List JobStatus) (s : JobStatus)
    (h₁ : ∀ x ∈ l₁, isActiveStatus x = true) (hs : isActiveStatus s = false) :
    takeWhileIncl isActiveStatus (l₁ ++ s :: l₂) = l₁ ++ [s] := by
  induction l₁ with
  | nil => simp [takeWhileIncl, hs]
  | cons a t ih =>
    have ha := h₁ a (List.mem_cons_self a t)
    simp only [List.cons_append, takeWhileIncl, ha, if_pos]
    exact congrArg (a :: ·) (ih fun x hx => h₁ x (List.mem_cons_of_mem a hx))

lemma terminal_not_active (s : JobStatus)
    (h : s.status = JobState.completed ∨ s.status = JobState.failed) :
    isActiveStatus s = false := by
  rcases h with h | h <;> simp [isActiveStatus, h]

/-- **C3.** For every sequence of job statuses returned by the server in
which an initial stretch of "pending"/"running" statuses is followed by a
first terminal ("completed" or "failed") status, both `pollTrainingStatus`
and `pollBacktestStatus` emit exactly that stretch followed by the first
terminal status, and nothing that comes after it — the emission list is
`l₁ ++ [s]`, after which the stream completes. -/
theorem pollStatus_emits_until_first_terminal
    (l₁ l₂ : List JobStatus) (s : JobStatus)
    (hact : ∀ x ∈ l₁, x.status = JobState.pending ∨ x.status = JobState.running)
    (hterm : s.status = JobState.completed ∨ s.status = JobState.failed) :
    ApiService.pollTrainingStatus (l₁ ++ s :: l₂) = l₁ ++ [s] ∧
    ApiService.pollBacktestStatus (l₁ ++ s :: l₂) = l₁ ++ [s] := by
  have h₁ : ∀ x ∈ l₁, isActiveStatus x = true := by
    intro x hx
    rcases hact x hx with h | h <;> simp [isActiveStatus, h]
  have hs := terminal_not_active s hterm
  exact ⟨takeWhileIncl_append_terminal l₁ l₂ s h₁ hs,
         takeWhileIncl_append_terminal l₁ l₂ s h₁ hs⟩

/-- Witness for C3 on a concrete emission sequence: pending, running,
completed, then a trailing running status that must not be emitted. -/
theorem pollStatus_emits_until_first_terminal_witness :
    ApiService.pollTrainingStatus
        [⟨JobState.pending, 0, "queued", "t0"⟩,
         ⟨JobState.running, 50, "half", "t1"⟩,
         ⟨JobState.completed, 100, "done", "t2"⟩,
         ⟨JobState.running, 10, "ghost", "t3"⟩] =
      [⟨JobState.pending, 0, "queued", "t0"⟩,
       ⟨JobState.running, 50, "half", "t1"⟩,
       ⟨JobState.completed, 100, "done", "t2"⟩] :=
  (pollStatus_emits_until_first_terminal
    [⟨JobState.pending, 0, "queued", "t0"⟩, ⟨JobState.running, 50, "half", "t1"⟩]
    [⟨JobState.running, 10, "ghost", "t3"⟩]
    ⟨JobState.completed, 100, "done", "t2"⟩
    (by decide) (by decide)).1

/-! ## BacktestPanelComponent (`features/backtesting/backtest-panel.component.ts`)

The component state touched by the polling subscriber, plus whether a
`getBacktestResults` request was issued.  `handleError` shows
`error.message || "Backtest failed"` in a snackbar and clears `isRunning`;
we record the snackbar text in `errorMsg`. -/

namespace BacktestPanel

structure PanelState where
  isRunning : Bool
  backtestProgress : ℚ
  backtestStatus : String
  results : Option BacktestResults
  errorMsg : Option String
deriving DecidableEq, Repr

/-- State set by `startBacktest()` before polling begins. -/
def startState : PanelState :=
  { isRunning := true
    backtestProgress := 0
    backtestStatus := "Starting backtest..."
    results := none
    errorMsg := none }

/-- The snackbar text of `handleError`: `error.message || "Backtest failed"`,
where the error raised on a failed job is `new Error(status.message)` —
an empty message is falsy and falls back to the default text. -/
def surfacedError (message : String) : String :=
  if message = "" then "Backtest failed" else message

/-- `BacktestPanelComponent.handleError`. -/
def handleError (st : PanelState) (message : String) : PanelState :=
  { st with isRunning := false, errorMsg := some (surfacedError message) }

/-- One `next:` callback of the `pollBacktestStatus` subscription.  Returns
the new state and whether `loadBacktestResults` (the result-bundle fetch)
was called for this status. -/
def handleStatus (st : PanelState) (s : JobStatus) : PanelState × Bool :=
  let st' := { st with backtestProgress := s.progress, backtestStatus := s.message }
  if s.status = JobState.completed then (st', true)
  else if s.status = JobState.failed then (handleError st' s.message, false)
  else (st', false)

/-- Run the polling subscription over the statuses actually emitted by
`ApiService.pollBacktestStatus`, starting from `startState`; the Bool
accumulates whether any result fetch was issued. -/
def runPoll (statuses : List JobStatus) : PanelState × Bool :=
  (ApiService.pollBacktestStatus statuses).foldl
    (fun acc s =>
      let r := handleStatus acc.1 s
      (r.1, acc.2 || r.2))
    (startState, false)

end BacktestPanel

lemma handleStatus_active (st : BacktestPanel.PanelState) (s : JobStatus)
    (h : s.status = JobState.pending ∨ s.status = JobState.running) :
    BacktestPanel.handleStatus st s =
      ({ st with backtestProgress := s.progress, backtestStatus := s.message }, false) := by
  rcases h with h | h <;> simp [BacktestPanel.handleStatus, h]

lemma handleStatus_fetch_iff (st : BacktestPanel.PanelState) (s : JobStatus) :
    (BacktestPanel.handleStatus st s).2 = true ↔ s.status = JobState.completed := by
  by_cases hc : s.status = JobState.completed
  · simp [BacktestPanel.handleStatus, hc]
  · by_cases hf : s.status = JobState.failed <;>
      simp [BacktestPanel.handleStatus, hc, hf]

lemma handleStatus_keeps_results (st : BacktestPanel.PanelState) (s : JobStatus) :
    ((BacktestPanel.handleStatus st s).1).results = st.results := by
  by_cases hc : s.status = JobState.completed
  · simp [BacktestPanel.handleStatus, hc]
  · by_cases hf : s.status = JobState.failed <;>
      simp [BacktestPanel.handleStatus, BacktestPanel.handleError, hc, hf]

lemma foldl_active_prefix (l : List JobStatus)
    (h : ∀ x ∈ l, x.status = JobState.pending ∨ x.status = JobState.running) :
    ∀ (st : BacktestPanel.PanelState) (b : Bool),
      l.foldl (fun acc s =>
          let r := BacktestPanel.handleStatus acc.1 s
          (r.1, acc.2 || r.2)) (st, b) =
        (l.foldl (fun acc s =>
            { acc with backtestProgress := s.progress, backtestStatus := s.message }) st, b) := by
  induction l with
  | nil => intro st b; rfl
  | cons a t ih =>
    intro st b
    have ha := h a (List.mem_cons_self a t)
    simp only [List.foldl_cons, handleStatus_active st a ha]
    have hb : (b || false) = b := by simp
    rw [hb]
    exact ih (fun x hx => h x (List.mem_cons_of_mem a hx)) _ b

lemma foldl_progress_keeps (l : List JobStatus) :
    ∀ st : BacktestPanel.PanelState,
      (l.foldl (fun acc s =>
          { acc with backtestProgress := s.progress, backtestStatus := s.message }) st).isRunning
          = st.isRunning ∧
      (l.foldl (fun acc s =>
          { acc with backtestProgress := s.progress, backtestStatus := s.message }) st).results
          = st.results ∧
      (l.foldl (fun acc s =>
          { acc with backtestProgress := s.progress, backtestStatus := s.message }) st).errorMsg
          = st.errorMsg := by
  induction l with
  | nil => intro st; exact ⟨rfl, rfl, rfl⟩
  | cons a t ih => intro st; exact ih _

lemma foldl_fetch_exists (l : List JobStatus) :
    ∀ (st : BacktestPanel.PanelState) (b : Bool),
      (l.foldl (fun acc s =>
          let r := BacktestPanel.handleStatus acc.1 s
          (r.1, acc.2 || r.2)) (st, b)).2 = true →
        b = true ∨ ∃ x ∈ l, x.status = JobState.completed := by
  induction l with
  | nil => intro st b h; exact Or.inl h
  | cons a t ih =>
    intro st b h
    simp only [List.foldl_cons] at h
    rcases ih _ _ h with hb | ⟨x, hx, hxc⟩
    · rcases Bool.or_eq_true_iff.mp hb with hb | hfa
      · exact Or.inl hb
      · exact Or.inr ⟨a, List.mem_cons_self a t,
          (handleStatus_fetch_iff st a).mp hfa⟩
    · exact Or.inr ⟨x, List.mem_cons_of_mem a hx, hxc⟩

/-- **C4 (amended).** When the polled backtest job ends with a "failed"
status after any stretch of pending/running statuses, the panel surfaces
that status's message as the error (falling back to the literal
"Backtest failed" when the message is empty), sets `isRunning` to false,
never issues the result-bundle fetch, and its `results` field stays
`none`; and on any emission sequence whatsoever, a result fetch is issued
only for a status whose state is "completed". -/
theorem backtestPanel_failed_job_spec
    (l₁ l₂ : List JobStatus) (s : JobStatus)
    (hact : ∀ x ∈ l₁, x.status = JobState.pending ∨ x.status = JobState.running)
    (hfail : s.status = JobState.failed) :
    ((BacktestPanel.runPoll (l₁ ++ s :: l₂)).1.errorMsg
        = some (BacktestPanel.surfacedError s.message) ∧
      (BacktestPanel.runPoll (l₁ ++ s :: l₂)).1.isRunning = false ∧
      (BacktestPanel.runPoll (l₁ ++ s :: l₂)).1.results = none ∧
      (BacktestPanel.runPoll (l₁ ++ s :: l₂)).2 = false) ∧
    ∀ statuses : List JobStatus, (BacktestPanel.runPoll statuses).2 = true →
      ∃ x ∈ ApiService.pollBacktestStatus statuses, x.status = JobState.completed := by
  constructor
  · have hterm : s.status = JobState.completed ∨ s.status = JobState.failed := Or.inr hfail
    have hpoll := (pollStatus_emits_until_first_terminal l₁ l₂ s hact hterm).2
    unfold BacktestPanel.runPoll
    rw [hpoll, List.foldl_append,
        foldl_active_prefix l₁ hact BacktestPanel.startState false]
    set st₁ := l₁.foldl (fun acc s =>
        { acc with backtestProgress := s.progress, backtestStatus := s.message })
        BacktestPanel.startState with hst₁
    have hkeep := foldl_progress_keeps l₁ BacktestPanel.startState
    have hres : st₁.results = none := by
      rw [← hst₁] at hkeep; exact hkeep.2.1
    simp only [List.foldl_cons, List.foldl_nil]
    have hns : ¬ s.status = JobState.completed := by
      rw [hfail]; intro h; cases h
    simp [BacktestPanel.handleStatus, BacktestPanel.handleError, hns, hfail, hres]
  · intro statuses hfetch
    unfold BacktestPanel.runPoll at hfetch
    rcases foldl_fetch_exists (ApiService.pollBacktestStatus statuses)
        BacktestPanel.startState false hfetch with hb | hex
    · cases hb
    · exact hex

/-- Witness for C4: a failed job with message "boom" after one running
status; the panel records the error, stops running, keeps no results, and
never fetches the bundle. -/
theorem backtestPanel_failed_job_spec_witness :
    (BacktestPanel.runPoll
        [⟨JobState.running, 40, "working", "t0"⟩,
         ⟨JobState.failed, 40, "boom", "t1"⟩]).1.errorMsg = some "boom" ∧
    (BacktestPanel.runPoll
        [⟨JobState.running, 40, "working", "t0"⟩,
         ⟨JobState.failed, 40, "boom", "t1"⟩]).1.isRunning = false ∧
    (BacktestPanel.runPoll
        [⟨JobState.running, 40, "working", "t0"⟩,
         ⟨JobState.failed, 40, "boom", "t1"⟩]).1.results = none ∧
    (BacktestPanel.runPoll
        [⟨JobState.running, 40, "working", "t0"⟩,
         ⟨JobState.failed, 40, "boom", "t1"⟩]).2 = false := by
  have h := (backtestPanel_failed_job_spec
      [⟨JobState.running, 40, "working", "t0"⟩] []
      ⟨JobState.failed, 40, "boom", "t1"⟩
      (by decide) (by decide)).1
  simpa [BacktestPanel.surfacedError] using h

/-- Counterexample to C4 as literally stated: a failed status whose
`message` is the empty string is NOT surfaced verbatim — the snackbar
shows the fallback text "Backtest failed" instead (the JS expression is
`error.message || "Backtest failed"`). -/
theorem backtestPanel_empty_message_counterexample :
    (BacktestPanel.runPoll [⟨JobState.failed, 0, "", "t0"⟩]).1.errorMsg
      ≠ some "" ∧
    (BacktestPanel.runPoll [⟨JobState.failed, 0, "", "t0"⟩]).1.errorMsg
      = some "Backtest failed" := by
  constructor
  · decide
  · decide


/-! ## ResultsDashboardComponent (`features/results/results-dashboard.component.ts`)

CSV export and per-trade CSS class.  JS stringification of a cell value is
modelled by `toString` on ℚ; a `x || ""` cell is empty when the value is
null (absent) or 0 (both falsy in JS). -/

namespace ResultsDashboard

/-- The `headers` array of `generateCSV`. -/
def csvHeaders : List String :=
  ["Timestamp", "Type", "Entry Price", "SL", "TP",
   "Close Price", "Close Timestamp", "Pips", "Confidence"]

/-- Rendering of `Trade.type` into a cell. -/
def typeCell : TradeType → String
  | TradeType.BUY => "BUY"
  | TradeType.SELL => "SELL"

/-- A `x || ""` cell over a nullable number: null and 0 are both falsy. -/
def optNumCell : Option ℚ → String
  | none => ""
  | some q => if q = 0 then "" else toString q

/-- A `x || ""` cell over a nullable string: null and "" both yield "". -/
def optStrCell : Option String → String
  | none => ""
  | some s => s

/-- One row of `generateCSV`: the projection
`[timestamp, type, entry_price, sl, tp, close_price || "",
close_timestamp || "", pips || "", confidence]`. -/
def csvRow (t : Trade) : List String :=
  [t.timestamp, typeCell t.type, toString t.entry_price, toString t.sl,
   toString t.tp, optNumCell t.close_price, optStrCell t.close_timestamp,
   optNumCell t.pips, toString t.confidence]

/-- The line list of `generateCSV`:
`[headers.join(","), ...rows.map(row => row.join(","))]`. -/
def csvLines (r : BacktestResults) : List String :=
  String.intercalate "," csvHeaders ::
    r.trades.map (fun t => String.intercalate "," (csvRow t))

/-- `ResultsDashboardComponent.generateCSV` (on a present result bundle):
the lines are joined with "\n". -/
def generateCSV (r : BacktestResults) : String :=
  String.intercalate "\n" (csvLines r)

/-- `ResultsDashboardComponent.getTradeClass`:
`if (!trade.pips) return ""; return trade.pips > 0 ? "positive" : "negative"`. -/
def getTradeClass (t : Trade) : String :=
  match t.pips with
  | none => ""
  | some p => if p = 0 then "" else if p > 0 then "positive" else "negative"

end ResultsDashboard

/-- **C5.** `generateCSV` produces exactly one header line with the nine
columns Timestamp, Type, Entry Price, SL, TP, Close Price, Close
Timestamp, Pips, Confidence, followed by exactly one row per trade in the
order of the trades list, each row being the nine-field projection of the
trade — independent of its `status`, `close_reason` and `profit_money`
fields, which are omitted. -/
theorem generateCSV_projection_spec (r : BacktestResults) :
    ResultsDashboard.generateCSV r
        = String.intercalate "\n" (ResultsDashboard.csvLines r) ∧
    (ResultsDashboard.csvLines r).head?
        = some "Timestamp,Type,Entry Price,SL,TP,Close Price,Close Timestamp,Pips,Confidence" ∧
    (ResultsDashboard.csvLines r).length = r.trades.length + 1 ∧
    (∀ i : ℕ, (ResultsDashboard.csvLines r)[i + 1]?
        = (r.trades[i]?).map
            (fun t => String.intercalate "," (ResultsDashboard.csvRow t))) ∧
    (∀ (t : Trade) (st : TradeStatus) (cr : Option String) (pm : Option ℚ),
      ResultsDashboard.csvRow
          { t with status := st, close_reason := cr, profit_money := pm }
        = ResultsDashboard.csvRow t) := by
  refine ⟨rfl, rfl, by simp [ResultsDashboard.csvLines], ?_, ?_⟩
  · intro i
    simp [ResultsDashboard.csvLines, List.getElem?_map]
  · intro t st cr pm
    rfl

/-- **C10.** A trade whose `pips` is null or exactly 0 is rendered with no
result: `getTradeClass` returns the empty string (neither "positive" nor
"negative") and the CSV Pips cell (`trade.pips || ""`) is empty — such a
break-even closed trade is indistinguishable from an open trade in these
two outputs. -/
theorem zero_or_null_pips_render_empty (t : Trade)
    (h : t.pips = none ∨ t.pips = some 0) :
    ResultsDashboard.getTradeClass t = "" ∧
    ResultsDashboard.optNumCell t.pips = "" ∧
    (∀ u : Trade, u.pips = none →
      ResultsDashboard.getTradeClass t = ResultsDashboard.getTradeClass u ∧
      ResultsDashboard.optNumCell t.pips = ResultsDashboard.optNumCell u.pips) := by
  have hmain : ResultsDashboard.getTradeClass t = "" ∧
      ResultsDashboard.optNumCell t.pips = "" := by
    rcases h with h | h <;>
      simp [ResultsDashboard.getTradeClass, ResultsDashboard.optNumCell, h]
  refine ⟨hmain.1, hmain.2, ?_⟩
  intro u hu
  constructor
  · rw [hmain.1]; simp [ResultsDashboard.getTradeClass, hu]
  · rw [hmain.2]; simp [ResultsDashboard.optNumCell, hu]

/-- Witness for C10: a closed break-even trade (pips = 0) renders the
empty class and an empty Pips cell. -/
theorem zero_or_null_pips_render_empty_witness :
    ResultsDashboard.getTradeClass
        { timestamp := "2024-01-02T10:00:00", type := TradeType.BUY,
          entry_price := 2031, sl := 2021, tp := 2051,
          close_price := some 2031, close_timestamp := some "2024-01-02T14:00:00",
          close_reason := some "EndOfData", pips := some 0,
          profit_money := some 0, status := TradeStatus.Closed,
          confidence := 7/10 } = "" ∧
    ResultsDashboard.optNumCell (some 0) = "" :=
  ⟨(zero_or_null_pips_render_empty _ (Or.inr rfl)).1,
   (zero_or_null_pips_render_empty
      { timestamp := "2024-01-02T10:00:00", type := TradeType.BUY,
        entry_price := 2031, sl := 2021, tp := 2051,
        close_price := some 2031, close_timestamp := some "2024-01-02T14:00:00",
        close_reason := some "EndOfData", pips := some 0,
        profit_money := some 0, status := TradeStatus.Closed,
        confidence := 7/10 } (Or.inr rfl)).2.1⟩

/-! ## TradesCalendarComponent
(`features/results/trades-calendar/trades-calendar.component.ts`)

`processData` copies the backend `daily_performance` entries verbatim into
a `Map` keyed by the `YYYY-MM-DD` string (later entries overwrite earlier
ones, as `Map.set` does); `generateCalendar` renders one `DayData` per day
of the viewed month, looked up in that map.  The JS `Date` arithmetic that
yields the month's start weekday and day count is a builtin; the model
takes those two numbers as inputs. -/

namespace TradesCalendar

/-- The value stored in the `dailyStats` map: only `percent` and `count`
are copied out of a `daily_performance` entry. -/
structure CalStats where
  percent : ℚ
  count : ℕ
deriving DecidableEq, Repr

/-- One rendered calendar cell (`DayData`, minus the raw JS `Date`). -/
structure DayData where
  dayOfMonth : ℕ
  returnPercent : ℚ
  tradeCount : ℕ
  hasTrade : Bool
  isPadding : Bool
deriving DecidableEq, Repr

/-- Two-digit zero padding, as `String(n).padStart(2, "0")`. -/
def pad2 (n : ℕ) : String :=
  if n < 10 then "0" ++ toString n else toString n

/-- `formatDateKey` on a (year, 0-based month, day) triple:
`year + "-" + pad(month+1) + "-" + pad(day)`. -/
def formatDateKey (year month0 day : ℕ) : String :=
  toString year ++ "-" ++ pad2 (month0 + 1) ++ "-" ++ pad2 day

/-- `processData` + `dailyStats.get`: the lookup over the copied map.
`Map.set` makes the last entry for a key win, hence the reversed find. -/
def dailyStatsLookup (feed : List (String × DailyPerf)) (key : String) :
    Option CalStats :=
  (feed.reverse.find? (fun e => e.1 == key)).map
    (fun e => { percent := e.2.percent, count := e.2.count })

/-- The padding cells `generateCalendar` pushes before day 1. -/
def paddingDays (startDayOfWeek : ℕ) : List DayData :=
  (List.range startDayOfWeek).map (fun _ =>
    { dayOfMonth := 0, returnPercent := 0, tradeCount := 0,
      hasTrade := false, isPadding := false })

/-- The actual-day cells of `generateCalendar` for days 1..daysInMonth. -/
def actualDays (year month0 daysInMonth : ℕ)
    (feed : List (String × DailyPerf)) : List DayData :=
  (List.range daysInMonth).map (fun j =>
    let day := j + 1
    match dailyStatsLookup feed (formatDateKey year month0 day) with
    | some s =>
        { dayOfMonth := day, returnPercent := s.percent,
          tradeCount := s.count, hasTrade := true, isPadding := false }
    | none =>
        { dayOfMonth := day, returnPercent := 0, tradeCount := 0,
          hasTrade := false, isPadding := false })

/-- `generateCalendar`: padding cells followed by the month's days. -/
def generateCalendar (year month0 startDayOfWeek daysInMonth : ℕ)
    (feed : List (String × DailyPerf)) : List DayData :=
  paddingDays startDayOfWeek ++ actualDays year month0 daysInMonth feed

end TradesCalendar

lemma find?_reverse_of_nodup_keys (l : List (String × DailyPerf)) (k : String)
    (v : DailyPerf) (hnd : (l.map Prod.fst).Nodup) (hmem : (k, v) ∈ l) :
    l.reverse.find? (fun e => e.1 == k) = some (k, v) := by
  induction l with
  | nil => cases hmem
  | cons a t ih =>
    have hnd' : (t.map Prod.fst).Nodup := (List.nodup_cons.mp hnd).2
    have hka : a.1 ∉ t.map Prod.fst := (List.nodup_cons.mp hnd).1
    rcases List.mem_cons.mp hmem with h | h
    · subst h
      have hnone : t.reverse.find? (fun e => e.1 == k) = none := by
        rw [List.find?_eq_none]
        intro x hx
        simp only [beq_iff_eq]
        intro hxk
        have hx1 : x.1 ∈ t.map Prod.fst :=
          List.mem_map_of_mem Prod.fst (List.mem_reverse.mp hx)
        rw [hxk] at hx1
        exact hka hx1
      simp [List.reverse_cons, List.find?_append, hnone]
    · have := ih hnd' h
      simp [List.reverse_cons, List.find?_append, this]

lemma find?_reverse_of_absent (l : List (String × DailyPerf)) (k : String)
    (habs : ∀ e ∈ l, e.1 ≠ k) :
    l.reverse.find? (fun e => e.1 == k) = none := by
  rw [List.find?_eq_none]
  intro x hx
  simpa using habs x (List.mem_reverse.mp hx)

/-- **C7.** The calendar consumes the aggregator's `daily_performance`
feed verbatim (no re-derivation from the trade list, whose entries the
lookup never consults): on a feed with distinct date keys, a viewed-month
day whose key `YYYY-MM-DD` has a feed entry renders exactly that entry's
`percent` and `count` with `hasTrade = true`, and a day whose key has no
feed entry renders percent 0, count 0, `hasTrade = false`. -/
theorem calendar_uses_daily_performance_verbatim
    (year month0 daysInMonth day : ℕ) (feed : List (String × DailyPerf))
    (hday : day < daysInMonth) :
    (∀ v : DailyPerf, (feed.map Prod.fst).Nodup →
      (TradesCalendar.formatDateKey year month0 (day + 1), v) ∈ feed →
      (TradesCalendar.actualDays year month0 daysInMonth feed)[day]?
        = some { dayOfMonth := day + 1, returnPercent := v.percent,
                 tradeCount := v.count, hasTrade := true, isPadding := false }) ∧
    ((∀ e ∈ feed, e.1 ≠ TradesCalendar.formatDateKey year month0 (day + 1)) →
      (TradesCalendar.actualDays year month0 daysInMonth feed)[day]?
        = some { dayOfMonth := day + 1, returnPercent := 0,
                 tradeCount := 0, hasTrade := false, isPadding := false }) := by
  constructor
  · intro v hnd hmem
    have hfind := find?_reverse_of_nodup_keys feed _ v hnd hmem
    simp [TradesCalendar.actualDays, List.getElem?_map, List.getElem?_range hday,
      TradesCalendar.dailyStatsLookup, hfind]
  · intro habs
    have hfind := find?_reverse_of_absent feed _ habs
    simp [TradesCalendar.actualDays, List.getElem?_map, List.getElem?_range hday,
      TradesCalendar.dailyStatsLookup, hfind]

/-- Witness for C7: January 2024 with one feed entry on the 2nd; day 2
shows the fed percent/count, day 3 shows the empty cell. -/
theorem calendar_uses_daily_performance_verbatim_witness :
    (TradesCalendar.actualDays 2024 0 31
        [("2024-01-02", ⟨20, 5, 2⟩)])[1]?
      = some { dayOfMonth := 2, returnPercent := 5, tradeCount := 2,
               hasTrade := true, isPadding := false } ∧
    (TradesCalendar.actualDays 2024 0 31
        [("2024-01-02", ⟨20, 5, 2⟩)])[2]?
      = some { dayOfMonth := 3, returnPercent := 0, tradeCount := 0,
               hasTrade := false, isPadding := false } := by
  constructor
  · exact (calendar_uses_daily_performance_verbatim 2024 0 31 1
      [("2024-01-02", ⟨20, 5, 2⟩)] (by norm_num)).1 ⟨20, 5, 2⟩
      (by decide) (by decide)
  · exact (calendar_uses_daily_performance_verbatim 2024 0 31 2
      [("2024-01-02", ⟨20, 5, 2⟩)] (by norm_num)).2 (by decide)

/-! ## ParametersFormComponent (`parameters-form.component.ts`)

`initializeForm` seeds the reactive form from `TrainingParams` (risk
percentages scaled ×100 for display); `emitParams` rebuilds a
`TrainingParams` from the form value (risk percentages ÷100).  The
`TrainingParams` shape is the one this component populates
(core/models/models.ts). -/

/-- `TrainingParams.indicators`. -/
structure IndicatorParams where
  rsi_period : ℚ
  macd_fast : ℚ
  macd_slow : ℚ
  macd_signal : ℚ
  bb_period : ℚ
  bb_std_dev : ℚ
  atr_period : ℚ
  ema_fast : ℚ
  ema_slow : ℚ
deriving DecidableEq, Repr

/-- `TrainingParams.risk` (the fields the parameters form populates). -/
structure RiskParams where
  stop_loss_percent : ℚ
  take_profit_percent : ℚ
  prob_threshold : ℚ
  use_atr_stops : Bool
  use_trend_filter : Bool
deriving DecidableEq, Repr

/-- `TrainingParams.model`; `model_type` is kept as its string value. -/
structure ModelParams where
  model_type : String
  n_estimators : ℚ
  max_depth : ℚ
  min_samples_split : ℚ
deriving DecidableEq, Repr

/-- `TrainingParams.data` (both fields optional in models.ts). -/
structure DataParams where
  csv_path : Option String
  training_period : Option String
deriving DecidableEq, Repr

/-- `TrainingParams` (models.ts). -/
structure TrainingParams where
  indicators : IndicatorParams
  risk : RiskParams
  model : ModelParams
  data : DataParams
deriving DecidableEq, Repr

namespace ParametersForm

/-- The flat value of `parametersForm` (one control per field). -/
structure FormValue where
  rsi_period : ℚ
  macd_fast : ℚ
  macd_slow : ℚ
  macd_signal : ℚ
  bb_period : ℚ
  bb_std_dev : ℚ
  atr_period : ℚ
  ema_fast : ℚ
  ema_slow : ℚ
  stop_loss_percent : ℚ
  take_profit_percent : ℚ
  prob_threshold : ℚ
  use_atr_stops : Bool
  use_trend_filter : Bool
  model_type : String
  n_estimators : ℚ
  max_depth : ℚ
  min_samples_split : ℚ
  csv_path : String
  training_period : String
deriving DecidableEq, Repr

/-- A JS `x || d` over a nullable string: null and "" fall back to `d`. -/
def strOrDefault (x : Option String) (d : String) : String :=
  match x with
  | none => d
  | some s => if s = "" then d else s

/-- `ParametersFormComponent.initializeForm` applied to the defaults record:
risk percentages are stored ×100, `model_type || "xgboost"`,
`csv_path || ""`, `training_period || "1y"`. -/
def initializeForm (defaults : TrainingParams) : FormValue :=
  { rsi_period := defaults.indicators.rsi_period
    macd_fast := defaults.indicators.macd_fast
    macd_slow := defaults.indicators.macd_slow
    macd_signal := defaults.indicators.macd_signal
    bb_period := defaults.indicators.bb_period
    bb_std_dev := defaults.indicators.bb_std_dev
    atr_period := defaults.indicators.atr_period
    ema_fast := defaults.indicators.ema_fast
    ema_slow := defaults.indicators.ema_slow
    stop_loss_percent := defaults.risk.stop_loss_percent * 100
    take_profit_percent := defaults.risk.take_profit_percent * 100
    prob_threshold := defaults.risk.prob_threshold
    use_atr_stops := defaults.risk.use_atr_stops
    use_trend_filter := defaults.risk.use_trend_filter
    model_type := if defaults.model.model_type = "" then "xgboost"
                  else defaults.model.model_type
    n_estimators := defaults.model.n_estimators
    max_depth := defaults.model.max_depth
    min_samples_split := defaults.model.min_samples_split
    csv_path := strOrDefault defaults.data.csv_path ""
    training_period := strOrDefault defaults.data.training_period "1y" }

/-- `ParametersFormComponent.emitParams`: the emitted `TrainingParams`,
with risk percentages divided by 100. -/
def emitParams (v : FormValue) : TrainingParams :=
  { indicators :=
      { rsi_period := v.rsi_period
        macd_fast := v.macd_fast
        macd_slow := v.macd_slow
        macd_signal := v.macd_signal
        bb_period := v.bb_period
        bb_std_dev := v.bb_std_dev
        atr_period := v.atr_period
        ema_fast := v.ema_fast
        ema_slow := v.ema_slow }
    risk :=
      { stop_loss_percent := v.stop_loss_percent / 100
        take_profit_percent := v.take_profit_percent / 100
        prob_threshold := v.prob_threshold
        use_atr_stops := v.use_atr_stops
        use_trend_filter := v.use_trend_filter }
    model :=
      { model_type := v.model_type
        n_estimators := v.n_estimators
        max_depth := v.max_depth
        min_samples_split := v.min_samples_split }
    data :=
      { csv_path := some v.csv_path
        training_period := some v.training_period } }

end ParametersForm

/-- **C8.** Round-trip of the risk percentages: `initializeForm` stores
`risk.stop_loss_percent` and `risk.take_profit_percent` multiplied by 100
and `emitParams` divides the form values by 100, so composing the two is
the identity on those two fields for every initial parameter record
(numbers modelled as exact rationals). -/
theorem riskPercent_roundTrip (p : TrainingParams) :
    (ParametersForm.emitParams (ParametersForm.initializeForm p)).risk.stop_loss_percent
        = p.risk.stop_loss_percent ∧
    (ParametersForm.emitParams (ParametersForm.initializeForm p)).risk.take_profit_percent
        = p.risk.take_profit_percent := by
  constructor
  · show p.risk.stop_loss_percent * 100 / 100 = p.risk.stop_loss_percent
    exact mul_div_cancel_right₀ _ (by norm_num)
  · show p.risk.take_profit_percent * 100 / 100 = p.risk.take_profit_percent
    exact mul_div_cancel_right₀ _ (by norm_num)

/-! ## TopStrategiesComponent (`features/top-strategies/top-strategies.component.ts`)

`loadStrategies` decorates each strategy with a computed `gain_percent`
and sorts with the three-level descending comparator
(gain percent, then win rate, then profit factor).  The random
`connectedClients` decoration and sparkline data added afterwards do not
reorder the list and are outside the claims, so the model stops at the
sorted list. -/

namespace TopStrategies

/-- What `loadStrategies` reads off one strategy: its
`backtest.metrics` record. -/
structure StrategyRow where
  name : String
  metrics : BacktestMetrics
deriving DecidableEq, Repr

/-- A strategy decorated with the computed `gain_percent`. -/
structure ProcessedRow where
  name : String
  metrics : BacktestMetrics
  gain_percent : ℚ
deriving DecidableEq, Repr

/-- `s.backtest.metrics.initial_balance || 10000` (null and 0 are falsy). -/
def initialBal (m : BacktestMetrics) : ℚ :=
  match m.initial_balance with
  | none => 10000
  | some b => if b = 0 then 10000 else b

/-- `s.backtest.metrics.final_balance || initial`. -/
def finalBal (m : BacktestMetrics) (initial : ℚ) : ℚ :=
  match m.final_balance with
  | none => initial
  | some b => if b = 0 then initial else b

/-- `gain_percent = ((final - initial) / initial) * 100`. -/
def gainPercent (m : BacktestMetrics) : ℚ :=
  (finalBal m (initialBal m) - initialBal m) / initialBal m * 100

/-- The `.map` step of `loadStrategies`. -/
def addGain (s : StrategyRow) : ProcessedRow :=
  { name := s.name, metrics := s.metrics, gain_percent := gainPercent s.metrics }

/-- The sort comparator of `loadStrategies` (negative means `a` first):
gain percent descending, then win rate, then profit factor. -/
def strategyComparator (a b : ProcessedRow) : ℚ :=
  if b.gain_percent ≠ a.gain_percent then b.gain_percent - a.gain_percent
  else if b.metrics.win_rate ≠ a.metrics.win_rate then
    b.metrics.win_rate - a.metrics.win_rate
  else b.metrics.profit_factor - a.metrics.profit_factor

/-- "`a` may precede `b`" for the comparator: `comparator(a, b) ≤ 0`. -/
def stratLE (a b : ProcessedRow) : Bool :=
  decide (strategyComparator a b ≤ 0)

/-- `loadStrategies`: decorate then sort (JS `Array.prototype.sort` with a
consistent comparator, modelled by `mergeSort`). -/
def loadStrategies (data : List StrategyRow) : List ProcessedRow :=
  (data.map addGain).mergeSort stratLE

/-- The descending lexicographic order the claim describes: higher gain
percent first, ties by higher win rate, then by higher profit factor. -/
def stratOrder (a b : ProcessedRow) : Prop :=
  b.gain_percent < a.gain_percent ∨
  (b.gain_percent = a.gain_percent ∧
    (b.metrics.win_rate < a.metrics.win_rate ∨
     (b.metrics.win_rate = a.metrics.win_rate ∧
      b.metrics.profit_factor ≤ a.metrics.profit_factor)))

end TopStrategies

lemma stratLE_iff (a b : TopStrategies.ProcessedRow) :
    TopStrategies.stratLE a b = true ↔ TopStrategies.stratOrder a b := by
  unfold TopStrategies.stratLE TopStrategies.strategyComparator TopStrategies.stratOrder
  rw [decide_eq_true_iff]
  by_cases h1 : b.gain_percent = a.gain_percent
  · rw [if_neg (fun hc => hc h1)]
    by_cases h2 : b.metrics.win_rate = a.metrics.win_rate
    · rw [if_neg (fun hc => hc h2)]
      constructor
      · intro hle
        exact Or.inr ⟨h1, Or.inr ⟨h2, sub_nonpos.mp hle⟩⟩
      · rintro (hlt | ⟨-, hlt | ⟨-, hle⟩⟩)
        · rw [h1] at hlt
          exact absurd hlt (lt_irrefl _)
        · rw [h2] at hlt
          exact absurd hlt (lt_irrefl _)
        · exact sub_nonpos.mpr hle
    · rw [if_pos h2]
      constructor
      · intro hle
        exact Or.inr ⟨h1, Or.inl (lt_of_le_of_ne (sub_nonpos.mp hle) h2)⟩
      · rintro (hlt | ⟨-, hlt | ⟨heq, -⟩⟩)
        · rw [h1] at hlt
          exact absurd hlt (lt_irrefl _)
        · exact sub_nonpos.mpr (le_of_lt hlt)
        · exact absurd heq h2
  · rw [if_pos h1]
    constructor
    · intro hle
      exact Or.inl (lt_of_le_of_ne (sub_nonpos.mp hle) h1)
    · rintro (hlt | ⟨heq, -⟩)
      · exact sub_nonpos.mpr (le_of_lt hlt)
      · exact absurd heq h1

lemma stratOrder_total (a b : TopStrategies.ProcessedRow) :
    TopStrategies.stratOrder a b ∨ TopStrategies.stratOrder b a := by
  unfold TopStrategies.stratOrder
  rcases lt_trichotomy a.gain_percent b.gain_percent with h | h | h
  · exact Or.inr (Or.inl h)
  · rcases lt_trichotomy a.metrics.win_rate b.metrics.win_rate with h2 | h2 | h2
    · exact Or.inr (Or.inr ⟨h, Or.inl h2⟩)
    · rcases le_total a.metrics.profit_factor b.metrics.profit_factor with h3 | h3
      · exact Or.inr (Or.inr ⟨h, Or.inr ⟨h2, h3⟩⟩)
      · exact Or.inl (Or.inr ⟨h.symm, Or.inr ⟨h2.symm, h3⟩⟩)
    · exact Or.inl (Or.inr ⟨h.symm, Or.inl h2⟩)
  · exact Or.inl (Or.inl h)

lemma stratLE_trans (a b c : TopStrategies.ProcessedRow)
    (hab : TopStrategies.stratLE a b) (hbc : TopStrategies.stratLE b c) :
    TopStrategies.stratLE a c = true := by
  rw [stratLE_iff] at hab hbc ⊢
  unfold TopStrategies.stratOrder at hab hbc ⊢
  rcases hab with h1 | ⟨e1, h1⟩ <;> rcases hbc with h2 | ⟨e2, h2⟩
  · exact Or.inl (h2.trans h1)
  · exact Or.inl (e2 ▸ h1)
  · exact Or.inl (e1 ▸ h2)
  · refine Or.inr ⟨e2.trans e1, ?_⟩
    rcases h1 with h1 | ⟨f1, h1⟩ <;> rcases h2 with h2 | ⟨f2, h2⟩
    · exact Or.inl (h2.trans h1)
    · exact Or.inl (f2 ▸ h1)
    · exact Or.inl (f1 ▸ h2)
    · exact Or.inr ⟨f2.trans f1, h2.trans h1⟩

lemma stratLE_total (a b : TopStrategies.ProcessedRow) :
    (TopStrategies.stratLE a b || TopStrategies.stratLE b a) = true := by
  rcases stratOrder_total a b with h | h
  · exact Bool.or_eq_true_iff.mpr (Or.inl ((stratLE_iff a b).mpr h))
  · exact Bool.or_eq_true_iff.mpr (Or.inr ((stratLE_iff b a).mpr h))

/-- **C9.** After `loadStrategies` processes any server response, the
strategies list is sorted in descending order of gain percent, ties broken
by descending win rate and then descending profit factor; every element's
`gain_percent` equals `((final − initial) / initial) × 100` where a null
`initial_balance` defaults to 10000 and a null `final_balance` defaults to
the initial balance, which makes the gain exactly 0. -/
theorem loadStrategies_sorted_spec (data : List TopStrategies.StrategyRow) :
    (TopStrategies.loadStrategies data).Pairwise TopStrategies.stratOrder ∧
    (∀ s ∈ TopStrategies.loadStrategies data,
      s.gain_percent =
        (TopStrategies.finalBal s.metrics (TopStrategies.initialBal s.metrics)
            - TopStrategies.initialBal s.metrics)
          / TopStrategies.initialBal s.metrics * 100) ∧
    (∀ m : BacktestMetrics, m.initial_balance = none →
      TopStrategies.initialBal m = 10000) ∧
    (∀ m : BacktestMetrics, m.final_balance = none →
      TopStrategies.gainPercent m = 0) := by
  refine ⟨?_, ?_, ?_, ?_⟩
  · have hs := List.sorted_mergeSort stratLE_trans stratLE_total
        (data.map TopStrategies.addGain)
    exact hs.imp fun h => (stratLE_iff _ _).mp h
  · intro s hs
    have hmem : s ∈ data.map TopStrategies.addGain :=
      List.mem_mergeSort.mp hs
    rcases List.mem_map.mp hmem with ⟨r, _, hr⟩
    rw [← hr]
    rfl
  · intro m hm
    unfold TopStrategies.initialBal
    rw [hm]
  · intro m hm
    unfold TopStrategies.gainPercent TopStrategies.finalBal
    rw [hm]
    simp

/-- Witness for C9: a concrete strategy list; the element's gain percent
satisfies the formula, a null initial balance defaults to 10000, and a
null final balance yields gain 0. -/
theorem loadStrategies_sorted_spec_witness :
    (TopStrategies.addGain
        ⟨"b", ⟨some 10000, some 12000, none, 0, 0, 0, 0, 0, 0, 40, 0, 0, none, none, 2⟩⟩).gain_percent
      = (TopStrategies.finalBal
            ⟨some 10000, some 12000, none, 0, 0, 0, 0, 0, 0, 40, 0, 0, none, none, 2⟩
            (TopStrategies.initialBal
              ⟨some 10000, some 12000, none, 0, 0, 0, 0, 0, 0, 40, 0, 0, none, none, 2⟩)
          - TopStrategies.initialBal
              ⟨some 10000, some 12000, none, 0, 0, 0, 0, 0, 0, 40, 0, 0, none, none, 2⟩)
        / TopStrategies.initialBal
            ⟨some 10000, some 12000, none, 0, 0, 0, 0, 0, 0, 40, 0, 0, none, none, 2⟩ * 100 ∧
    TopStrategies.initialBal ⟨none, none, none, 0, 0, 0, 0, 0, 0, 0, 0, 0, none, none, 0⟩
      = 10000 ∧
    TopStrategies.gainPercent ⟨some 10000, none, none, 0, 0, 0, 0, 0, 0, 0, 0, 0, none, none, 0⟩
      = 0 := by
  refine ⟨?_, ?_, ?_⟩
  · exact (loadStrategies_sorted_spec
      [⟨"b", ⟨some 10000, some 12000, none, 0, 0, 0, 0, 0, 0, 40, 0, 0, none, none, 2⟩⟩]).2.1
      _ (by simp [TopStrategies.loadStrategies])
  · exact (loadStrategies_sorted_spec []).2.2.1 _ rfl
  · exact (loadStrategies_sorted_spec []).2.2.2 _ rfl

/-! ## Equity chart of ResultsDashboardComponent (`updateChartData`)

JS `Date` parsing is a browser builtin, so the model is parametrised by a
partial parse function `parse : String → Option ℤ` (epoch instant; `none`
for an invalid date, which `updateChartData` filters out with
`isNaN(dateVal.getTime())`) and the current instant `now` (`Date.now()`). -/

namespace ResultsDashboard

/-- `this.results?.metrics.initial_balance || 10000` (null and 0 falsy). -/
def chartInitialBalance (m : BacktestMetrics) : ℚ :=
  match m.initial_balance with
  | none => 10000
  | some b => if b = 0 then 10000 else b

/-- `point.balance || initialBalance` (null and 0 falsy). -/
def pointBalance (init : ℚ) (p : EquityPoint) : ℚ :=
  match p.balance with
  | none => init
  | some b => if b = 0 then init else b

/-- `Number(percentGain.toFixed(2))`: rounding to two decimal places
(idealised over ℚ). -/
def round2 (q : ℚ) : ℚ :=
  ((round (q * 100) : ℤ) : ℚ) / 100

/-- The date used for the "Start" equity point:
`new Date(this.results!.trades[0]?.timestamp || Date.now())`. -/
def startLabel (parse : String → Option ℤ) (now : ℤ) (r : BacktestResults) :
    Option ℤ :=
  match r.trades.head? with
  | none => some now
  | some t => if t.timestamp = "" then some now else parse t.timestamp

/-- The chart label of one equity point: the "Start" entry is mapped via
`startLabel`, every other entry parses its own timestamp. -/
def pointLabel (parse : String → Option ℤ) (now : ℤ) (r : BacktestResults)
    (p : EquityPoint) : Option ℤ :=
  if p.timestamp = "Start" then startLabel parse now r else parse p.timestamp

/-- The (label, value) pairs pushed for the equity chart: one per equity
point with a valid date, value `((balance − initial) / initial) × 100`
rounded to two decimals. -/
def equityChartPoints (parse : String → Option ℤ) (now : ℤ)
    (r : BacktestResults) : List (ℤ × ℚ) :=
  let init := chartInitialBalance r.metrics
  r.equity_curve.filterMap (fun p =>
    (pointLabel parse now r p).map (fun d =>
      (d, round2 ((pointBalance init p - init) / init * 100))))

end ResultsDashboard

/-- Modelled from the spec: the backend PerformanceAggregator's equity
curve construction is not under src/; per §3 and §6 one synthetic point
with the timestamp literal "Start" precedes the per-bar points to anchor
percent-gain calculations. -/
def mkEquityCurve (initial_capital : ℚ) (rest : List EquityPoint) :
    List EquityPoint :=
  { timestamp := "Start", balance := some initial_capital, pips := 0 } :: rest

/-- **C6.** The first equity-curve entry carries the timestamp literal
"Start"; the dashboard charts that entry at the first trade's timestamp;
every charted equity value is `((balance − initial_balance) /
initial_balance) × 100` rounded to two decimals, a null balance is
treated as the initial balance (charted value exactly 0), and a null
`initial_balance` defaults to 10000. -/
theorem equityChart_start_and_values
    (parse : String → Option ℤ) (now : ℤ) (r : BacktestResults) :
    (∀ (ic : ℚ) (rest : List EquityPoint),
      ((mkEquityCurve ic rest).head?).map EquityPoint.timestamp = some "Start") ∧
    (∀ (t : Trade) (d : ℤ), r.trades.head? = some t → t.timestamp ≠ "" →
      parse t.timestamp = some d →
      ∀ p : EquityPoint, p.timestamp = "Start" →
        ResultsDashboard.pointLabel parse now r p = some d) ∧
    (∀ x ∈ ResultsDashboard.equityChartPoints parse now r,
      ∃ p ∈ r.equity_curve,
        ResultsDashboard.pointLabel parse now r p = some x.1 ∧
        x.2 = ResultsDashboard.round2
          ((ResultsDashboard.pointBalance (ResultsDashboard.chartInitialBalance r.metrics) p
              - ResultsDashboard.chartInitialBalance r.metrics)
            / ResultsDashboard.chartInitialBalance r.metrics * 100)) ∧
    (∀ p : EquityPoint, p.balance = none →
      ResultsDashboard.round2
        ((ResultsDashboard.pointBalance (ResultsDashboard.chartInitialBalance r.metrics) p
            - ResultsDashboard.chartInitialBalance r.metrics)
          / ResultsDashboard.chartInitialBalance r.metrics * 100) = 0) ∧
    (r.metrics.initial_balance = none →
      ResultsDashboard.chartInitialBalance r.metrics = 10000) := by
  refine ⟨?_, ?_, ?_, ?_, ?_⟩
  · intro ic rest
    rfl
  · intro t d ht hts hparse p hp
    unfold ResultsDashboard.pointLabel ResultsDashboard.startLabel
    rw [if_pos hp, ht]
    show (if t.timestamp = "" then some now else parse t.timestamp) = some d
    rw [if_neg hts]
    exact hparse
  · intro x hx
    rcases List.mem_filterMap.mp hx with ⟨p, hp, hpx⟩
    rcases Option.map_eq_some'.mp hpx with ⟨d, hd, hdx⟩
    refine ⟨p, hp, ?_, ?_⟩
    · rw [hd, ← hdx]
    · rw [← hdx]
  · intro p hp
    unfold ResultsDashboard.pointBalance
    rw [hp]
    simp [ResultsDashboard.round2]
  · intro hm
    unfold ResultsDashboard.chartInitialBalance
    rw [hm]

/-- Witness for C6 on a concrete bundle: one trade on 2024-01-02 (parsed
to instant 1704153600), an equity curve starting at "Start"; the Start
point is charted at the trade's instant, and a null-balance point charts
exactly 0. -/
theorem equityChart_start_and_values_witness :
    ((mkEquityCurve 10000 []).head?).map EquityPoint.timestamp = some "Start" ∧
    ResultsDashboard.pointLabel
        (fun s => if s = "2024-01-02" then some 1704153600 else none) 0
        { trades := [{ timestamp := "2024-01-02", type := TradeType.BUY,
                       entry_price := 2031, sl := 2021, tp := 2051,
                       close_price := none, close_timestamp := none,
                       close_reason := none, pips := none, profit_money := none,
                       status := TradeStatus.Open, confidence := 1 }],
          metrics := ⟨some 10000, none, none, 0, 1, 0, 1, 0, 0, 0, 0, 0, none, none, 0⟩,
          equity_curve := [{ timestamp := "Start", balance := some 10000, pips := 0 }],
          monthly_performance := none, daily_performance := none,
          drawdown_curve := none, output := "", timestamp := "t" }
        { timestamp := "Start", balance := some 10000, pips := 0 }
      = some 1704153600 ∧
    ResultsDashboard.round2
        ((ResultsDashboard.pointBalance
            (ResultsDashboard.chartInitialBalance
              ⟨some 10000, none, none, 0, 1, 0, 1, 0, 0, 0, 0, 0, none, none, 0⟩)
            { timestamp := "x", balance := none, pips := 0 }
          - ResultsDashboard.chartInitialBalance
              ⟨some 10000, none, none, 0, 1, 0, 1, 0, 0, 0, 0, 0, none, none, 0⟩)
          / ResultsDashboard.chartInitialBalance
              ⟨some 10000, none, none, 0, 1, 0, 1, 0, 0, 0, 0, 0, none, none, 0⟩ * 100) = 0 := by
  have h := equityChart_start_and_values
      (fun s => if s = "2024-01-02" then some 1704153600 else none) 0
      { trades := [{ timestamp := "2024-01-02", type := TradeType.BUY,
                     entry_price := 2031, sl := 2021, tp := 2051,
                     close_price := none, close_timestamp := none,
                     close_reason := none, pips := none, profit_money := none,
                     status := TradeStatus.Open, confidence := 1 }],
        metrics := ⟨some 10000, none, none, 0, 1, 0, 1, 0, 0, 0, 0, 0, none, none, 0⟩,
        equity_curve := [{ timestamp := "Start", balance := some 10000, pips := 0 }],
        monthly_performance := none, daily_performance := none,
        drawdown_curve := none, output := "", timestamp := "t" }
  refine ⟨h.1 10000 [], ?_, ?_⟩
  · exact h.2.1 _ 1704153600 rfl (by decide) (by decide) _ rfl
  · exact h.2.2.2.1 { timestamp := "x", balance := none, pips := 0 } rfl

/-! ## Backend TradeSimulator and PerformanceAggregator

The Python backend is not part of the sources (only the frontend and the
READMEs are); the definitions below are modelled from the specification,
as their doc comments state, and reuse the frontend's `Trade` record shape
that the backend's result bundle populates. -/

/-- Modelled from the spec: a raw OHLCV bar of the backend TradeSimulator
(§3, §4.3), which is not under src/. -/
structure SimBar where
  timestamp : String
  open_price : ℚ
  high : ℚ
  low : ℚ
  close : ℚ
  volume : ℚ
deriving DecidableEq, Repr

/-- Modelled from the spec: realized pips on close (§4.3 step 4),
`±(close_price − entry_price)` in pip units depending on direction. -/
def tradePips (pipSize : ℚ) (t : Trade) (closePrice : ℚ) : ℚ :=
  match t.type with
  | TradeType.BUY => (closePrice - t.entry_price) / pipSize
  | TradeType.SELL => (t.entry_price - closePrice) / pipSize

/-- Modelled from the spec: closing an open trade at a given price with a
given reason (§4.3 step 4): set status Closed, record close
price/timestamp/reason, realized pips and money
(`pips × pip_value × position_size`). -/
def closeTradeAt (pipSize pipValue positionSize : ℚ) (t : Trade)
    (ts : String) (price : ℚ) (reason : String) : Trade :=
  let pips := tradePips pipSize t price
  { t with
    status := TradeStatus.Closed
    close_price := some price
    close_timestamp := some ts
    close_reason := some reason
    pips := some pips
    profit_money := some (pips * pipValue * positionSize) }

/-- Modelled from the spec: the backend TradeSimulator's per-bar exit
evaluation (§4.3 step 1), which is not under src/.  For an Open trade it
uses THIS bar's high/low: a level is touched when it lies within
[low, high]; if both the stop-loss and the take-profit are touched, the
stop-loss triggers first (conservative tie-break); otherwise whichever
level is touched closes the trade at that level's price with the
corresponding reason. -/
def evalExit (pipSize pipValue positionSize : ℚ) (bar : SimBar) (t : Trade) :
    Trade :=
  if t.status = TradeStatus.Open then
    if bar.low ≤ t.sl ∧ t.sl ≤ bar.high then
      closeTradeAt pipSize pipValue positionSize t bar.timestamp t.sl "StopLoss"
    else if bar.low ≤ t.tp ∧ t.tp ≤ bar.high then
      closeTradeAt pipSize pipValue positionSize t bar.timestamp t.tp "TakeProfit"
    else t
  else t

/-- **C1.** In the TradeSimulator, on every bar where a trade is Open and
both the stop-loss and the take-profit levels lie within the bar's
[low, high] range, the trade is closed at the stop-loss price with close
reason StopLoss: the stop-loss deterministically triggers first on a
same-bar collision. -/
theorem sl_triggers_first_on_collision
    (pipSize pipValue positionSize : ℚ) (bar : SimBar) (t : Trade)
    (hopen : t.status = TradeStatus.Open)
    (hsl₁ : bar.low ≤ t.sl) (hsl₂ : t.sl ≤ bar.high)
    (htp₁ : bar.low ≤ t.tp) (htp₂ : t.tp ≤ bar.high) :
    (evalExit pipSize pipValue positionSize bar t).status = TradeStatus.Closed ∧
    (evalExit pipSize pipValue positionSize bar t).close_price = some t.sl ∧
    (evalExit pipSize pipValue positionSize bar t).close_reason = some "StopLoss" := by
  unfold evalExit
  rw [if_pos hopen, if_pos ⟨hsl₁, hsl₂⟩]
  exact ⟨rfl, rfl, rfl⟩

/-- Witness for C1: an open BUY trade whose SL (2021) and TP (2051) both
lie inside the bar range [2015, 2060]; to resolve the collision it closes
at the stop-loss with reason StopLoss. -/
theorem sl_triggers_first_on_collision_witness :
    (evalExit 1 1 1 ⟨"b1", 2030, 2060, 2015, 2040, 100⟩
        { timestamp := "t1", type := TradeType.BUY, entry_price := 2031,
          sl := 2021, tp := 2051, close_price := none, close_timestamp := none,
          close_reason := none, pips := none, profit_money := none,
          status := TradeStatus.Open, confidence := 1 }).status
      = TradeStatus.Closed ∧
    (evalExit 1 1 1 ⟨"b1", 2030, 2060, 2015, 2040, 100⟩
        { timestamp := "t1", type := TradeType.BUY, entry_price := 2031,
          sl := 2021, tp := 2051, close_price := none, close_timestamp := none,
          close_reason := none, pips := none, profit_money := none,
          status := TradeStatus.Open, confidence := 1 }).close_price
      = some 2021 ∧
    (evalExit 1 1 1 ⟨"b1", 2030, 2060, 2015, 2040, 100⟩
        { timestamp := "t1", type := TradeType.BUY, entry_price := 2031,
          sl := 2021, tp := 2051, close_price := none, close_timestamp := none,
          close_reason := none, pips := none, profit_money := none,
          status := TradeStatus.Open, confidence := 1 }).close_reason
      = some "StopLoss" :=
  sl_triggers_first_on_collision 1 1 1 ⟨"b1", 2030, 2060, 2015, 2040, 100⟩
    { timestamp := "t1", type := TradeType.BUY, entry_price := 2031,
      sl := 2021, tp := 2051, close_price := none, close_timestamp := none,
      close_reason := none, pips := none, profit_money := none,
      status := TradeStatus.Open, confidence := 1 }
    rfl (by norm_num) (by norm_num) (by norm_num) (by norm_num)

/-- The value of the aggregator's `profit_factor`: either a finite ratio
or the "infinite" sentinel. -/
inductive ProfitFactorVal where
  | finite (q : ℚ)
  | infinite
deriving DecidableEq, Repr

/-- Modelled from the spec: the backend PerformanceAggregator's
`profit_factor` (§4.4, not under src/):
`gross_winning_money / |gross_losing_money|`, the "infinite" sentinel when
losing money is exactly zero and winning money > 0, and 0 when both are
zero; total by construction, so no division-by-zero exception can arise. -/
def profitFactor (grossWin grossLoss : ℚ) : ProfitFactorVal :=
  if grossLoss = 0 then
    if 0 < grossWin then ProfitFactorVal.infinite else ProfitFactorVal.finite 0
  else ProfitFactorVal.finite (grossWin / |grossLoss|)

/-- Modelled from the spec: winners are closed trades with pips > 0
(§4.4); their money sum. -/
def grossWinningMoney (trades : List Trade) : ℚ :=
  ((trades.filter (fun t =>
      match t.pips with
      | some p => decide (0 < p)
      | none => false)).map (fun t => t.profit_money.getD 0)).sum

/-- Modelled from the spec: losers are closed trades with pips < 0
(§4.4); their money sum. -/
def grossLosingMoney (trades : List Trade) : ℚ :=
  ((trades.filter (fun t =>
      match t.pips with
      | some p => decide (p < 0)
      | none => false)).map (fun t => t.profit_money.getD 0)).sum

/-- The aggregator's profit factor over a completed trade ledger. -/
def runProfitFactor (trades : List Trade) : ProfitFactorVal :=
  profitFactor (grossWinningMoney trades) (grossLosingMoney trades)

/-- **C2.** The profit factor equals gross winning money divided by the
absolute value of gross losing money whenever the latter is nonzero; it is
the "infinite" sentinel exactly when gross losing money is zero and gross
winning money is positive; it is 0 when both sums are zero; and it is a
total function of the two sums (defined for every input, so its
computation can never raise a division-by-zero exception), the run-level
value being exactly this function of the ledger's two gross sums. -/
theorem profitFactor_sentinel_spec (gw gl : ℚ) :
    (gl ≠ 0 → profitFactor gw gl = ProfitFactorVal.finite (gw / |gl|)) ∧
    (profitFactor gw gl = ProfitFactorVal.infinite ↔ gl = 0 ∧ 0 < gw) ∧
    (gw = 0 ∧ gl = 0 → profitFactor gw gl = ProfitFactorVal.finite 0) ∧
    (∀ trades : List Trade,
      runProfitFactor trades
        = profitFactor (grossWinningMoney trades) (grossLosingMoney trades)) := by
  refine ⟨?_, ?_, ?_, fun _ => rfl⟩
  · intro h
    unfold profitFactor
    rw [if_neg h]
  · unfold profitFactor
    by_cases hl : gl = 0
    · by_cases hw : 0 < gw
      · simp [hl, hw]
      · simp [hl, hw]
    · simp [hl]
  · rintro ⟨hw, hl⟩
    unfold profitFactor
    rw [if_pos hl, if_neg (by rw [hw]; exact lt_irrefl 0)]

/-- Witness for C2, using the spec's own example (winners $500, losers
−$250 give exactly 2.0) plus both sentinel cases. -/
theorem profitFactor_sentinel_spec_witness :
    profitFactor 500 (-250) = ProfitFactorVal.finite 2 ∧
    profitFactor 0 0 = ProfitFactorVal.finite 0 ∧
    profitFactor 500 0 = ProfitFactorVal.infinite := by
  refine ⟨?_, ?_, ?_⟩
  · rw [(profitFactor_sentinel_spec 500 (-250)).1 (by norm_num)]
    norm_num
  · exact (profitFactor_sentinel_spec 0 0).2.2.1 ⟨rfl, rfl⟩
  · exact (profitFactor_sentinel_spec 500 0).2.1.mpr ⟨rfl, by norm_num⟩
